import Mathlib

/- Verification model of the AzguardWallet aztec-wallet adapter.

The TypeScript sources are shallowly embedded as pure Lean functions:
stateful methods become explicit state passing, the external Azguard
client (connect, execute, change events) becomes an oracle environment
together with an explicit trace of the client calls an adapter call
makes, and thrown errors become an explicit error type.  Ledger payloads,
addresses and schema-validated values are opaque to the adapter and are
modelled as strings; the external zod schemas are modelled as partial
functions returning Option (none models a rejected parse).

Two protocol variants are modelled:
- V1: the identity-caching variant in src/src/azguard.ts;
- V3: the account-per-call variant in src/unnamed/part_001 (the variant
  in src/unnamed/part_000 is textually identical to it on every symbol
  referenced below, up to the supported batch-method subset and the
  sendTx result schema). -/

namespace AztecWalletModel

/-- Result of one operation, as reported by the external Azguard agent. -/
inductive ExecResult where
  | ok (result : String)
  | failed (error : String)
  | skipped
deriving DecidableEq

/-- Errors thrown by the adapter; each constructor corresponds to one thrown
Error in the sources (connection: client connect rejected; initialization:
"Failed to initialize aztec wallet"; unauthorized: "Unauthorized from-account";
unsupportedBatch: "Unsupported batch method"; operationFailed and
operationSkipped: single-operation failure; validation: a zod schema rejected
the raw payload; batchFailed and batchSkipped: the batch decode errors naming
the offending method; disconnectedByUser: "Aztec wallet was disconnected by
the user"; agentProtocol: the runtime TypeError raised when the agent returns
fewer results than the adapter destructures). -/
inductive WErr where
  | connection
  | initialization
  | unauthorized
  | unsupportedBatch
  | operationFailed (error : String)
  | operationSkipped
  | validation
  | batchFailed (method : String) (error : String)
  | batchSkipped (method : String)
  | disconnectedByUser
  | agentProtocol
deriving DecidableEq

/-- Trace of external client calls made during one adapter call: how many times
client.connect was invoked and which operation batches were passed to
client.execute, in order. -/
structure Trace (Op : Type) where
  connects : Nat
  executes : List (List Op)
deriving DecidableEq

def Trace.append {Op : Type} (t1 t2 : Trace Op) : Trace Op :=
  ⟨t1.connects + t2.connects, t1.executes ++ t2.executes⟩

/-- Permission entry delivered by a permissions-changed event; both fields are
optional in the wire type, and a missing field makes the optional-chained
includes call evaluate to a falsy value in the source. -/
structure DappPermissions where
  chains : Option (List String)
  methods : Option (List String)
deriving DecidableEq

/-- Textual suffix test x.endsWith(suffix) of JS, used by the account searches
and the accounts-changed handler (spelled on the underlying character lists so
that concrete instances evaluate). -/
def jsEndsWith (x suffix : String) : Bool :=
  suffix.data.isSuffixOf x.data

/-- Whether some permission entry lists both the given chain and the given
method, mirroring permissions.some of the optional-chained conjunction in the
handlers. -/
def methodCovered (permissions : List DappPermissions) (chain m : String) : Bool :=
  permissions.any (fun p => ((p.chains.getD []).contains chain) && ((p.methods.getD []).contains m))

namespace V1

/-- Operations built by the identity-caching variant (src/src/azguard.ts).  The
account field models this.azguard.accounts[0], which may be undefined; generic
stands for any other operation record handed to the private execute. -/
inductive Op where
  | getCompleteAddress (account : Option String)
  | getAddress (account : Option String)
  | getChainId (chain : String)
  | getVersion (chain : String)
  | generic (kind : String) (payload : String)
deriving DecidableEq

/-- Adapter state: the external client session state (connected flag and
account list) together with the four cached identity fields of AztecWallet. -/
structure State where
  connected : Bool
  accounts : List String
  chain : String
  completeAddress : Option String
  address : Option String
  chainId : Option String
  version : Option String
deriving DecidableEq

/-- Oracle for the external client and the external schemas: whether a connect
attempt succeeds, the account list the client exposes after connecting, the
agent response to an execute call, and the three zod schemas used by the
identity bundle. -/
structure Env where
  connectOk : Bool
  connectAccounts : List String
  executeResp : List Op → List ExecResult
  completeAddressSchema : String → Option String
  aztecAddressSchema : String → Option String
  frSchema : String → Option String

/-- Client disconnect: the client drops the session and raises its
disconnected event, whose registered handler (readonly onDisconnected in
azguard.ts, lines 141-146) clears the four cached identity fields. -/
def clientDisconnect (s : State) : State :=
  { s with connected := false, completeAddress := none, address := none,
           chainId := none, version := none }

/-- Handler for the accounts-changed event (azguard.ts lines 124-129): when the
cached address has a truthy (hence nonempty) string form and no reported
account ends with it, the client is disconnected. -/
def onAccountsChanged (accounts : List String) (s : State) : State :=
  match s.address with
  | none => s
  | some currentAccount =>
    if currentAccount != "" && !(accounts.any (fun x => jsEndsWith x currentAccount)) then
      clientDisconnect s
    else s

/-- Handler for the permissions-changed event (azguard.ts lines 131-139).  The
required method list aztecMethods of this variant is imported from a module
that is not among the sources, so the fixed list is a parameter here. -/
def onPermissionsChanged (aztecMethods : List String) (permissions : List DappPermissions)
    (s : State) : State :=
  if aztecMethods.any (fun x => !(methodCovered permissions s.chain x)) then
    clientDisconnect s
  else s

/-- The four bundled identity operations sent right after connecting
(azguard.ts lines 159-176). -/
def identityOps (s : State) : List Op :=
  [Op.getCompleteAddress s.accounts.head?, Op.getAddress s.accounts.head?,
   Op.getChainId s.chain, Op.getVersion s.chain]

/-- One clause of the status check r1.status !== "ok" || r2.status !== "ok" ||
r3.status !== "ok" || r4.status !== "ok": reading status of a missing result
raises a TypeError, a non-ok status makes the check throw the InitializationError,
and an ok status yields the raw sub-result. -/
def subResult : Option ExecResult → Except WErr String
  | none => Except.error WErr.agentProtocol
  | some (ExecResult.ok v) => Except.ok v
  | some _ => Except.error WErr.initialization

/-- Body of the if (!this.version) guard inside ensureConnected (azguard.ts
lines 158-186): execute the four bundled operations, check the four statuses in
order, then validate and assign the four cache fields one after another, each
field being written directly after its own schema validation succeeds. -/
def fetchIdentity (env : Env) (s : State) (t : Trace Op) : Except WErr Unit × State × Trace Op :=
  if s.version.isNone then
    let results := env.executeResp (identityOps s)
    let t1 : Trace Op := ⟨t.connects, t.executes ++ [identityOps s]⟩
    match subResult (results[0]?) with
    | Except.error e => (Except.error e, s, t1)
    | Except.ok v1 =>
      match subResult (results[1]?) with
      | Except.error e => (Except.error e, s, t1)
      | Except.ok v2 =>
        match subResult (results[2]?) with
        | Except.error e => (Except.error e, s, t1)
        | Except.ok v3 =>
          match subResult (results[3]?) with
          | Except.error e => (Except.error e, s, t1)
          | Except.ok v4 =>
            match env.completeAddressSchema v1 with
            | none => (Except.error WErr.validation, s, t1)
            | some ca =>
              let sa := { s with completeAddress := some ca }
              match env.aztecAddressSchema v2 with
              | none => (Except.error WErr.validation, sa, t1)
              | some ad =>
                let sb := { sa with address := some ad }
                match env.frSchema v3 with
                | none => (Except.error WErr.validation, sb, t1)
                | some ci =>
                  let sc := { sb with chainId := some ci }
                  match env.frSchema v4 with
                  | none => (Except.error WErr.validation, sc, t1)
                  | some ve => (Except.ok (), { sc with version := some ve }, t1)
  else
    (Except.ok (), s, t)

/-- Model of the private ensureConnected of azguard.ts (lines 148-187): connect
the client when it is not connected, then run the identity fetch when no
version is cached. -/
def ensureConnected (env : Env) (s : State) : Except WErr Unit × State × Trace Op :=
  if !s.connected then
    if env.connectOk then
      fetchIdentity env { s with connected := true, accounts := env.connectAccounts } ⟨1, []⟩
    else
      (Except.error WErr.connection, s, ⟨1, []⟩)
  else
    fetchIdentity env s ⟨0, []⟩

/-- Model of the private execute of azguard.ts (lines 194-204): ensure a live
session, submit the single operation as a batch of size one, take the first
result, map failed and skipped results to errors and validate an ok result
with the caller-supplied schema. -/
def execute (env : Env) (schema : String → Option String) (operation : Op) (s : State) :
    Except WErr String × State × Trace Op :=
  match ensureConnected env s with
  | (Except.error e, s1, t1) => (Except.error e, s1, t1)
  | (Except.ok _, s1, t1) =>
    let results := env.executeResp [operation]
    let t2 : Trace Op := ⟨t1.connects, t1.executes ++ [[operation]]⟩
    match results.head? with
    | none => (Except.error WErr.agentProtocol, s1, t2)
    | some (ExecResult.failed e) => (Except.error (WErr.operationFailed e), s1, t2)
    | some ExecResult.skipped => (Except.error WErr.operationSkipped, s1, t2)
    | some (ExecResult.ok raw) =>
      match schema raw with
      | none => (Except.error WErr.validation, s1, t2)
      | some v => (Except.ok v, s1, t2)

/-- Accessor getCompleteAddress (azguard.ts lines 206-211): it only reads the
cache and never reconnects; with no cached value it throws the
StaleIdentityError "Aztec wallet was disconnected by the user". -/
def getCompleteAddress (s : State) : Except WErr String :=
  match s.completeAddress with
  | none => Except.error WErr.disconnectedByUser
  | some v => Except.ok v

/-- Accessor getAddress (azguard.ts lines 213-218). -/
def getAddress (s : State) : Except WErr String :=
  match s.address with
  | none => Except.error WErr.disconnectedByUser
  | some v => Except.ok v

/-- Accessor getChainId (azguard.ts lines 220-225). -/
def getChainId (s : State) : Except WErr String :=
  match s.chainId with
  | none => Except.error WErr.disconnectedByUser
  | some v => Except.ok v

/-- Accessor getVersion (azguard.ts lines 227-232). -/
def getVersion (s : State) : Except WErr String :=
  match s.version with
  | none => Except.error WErr.disconnectedByUser
  | some v => Except.ok v

/-- Repeated ensureConnected calls with no intervening disconnect, counting the
client connect calls issued over the whole sequence. -/
def iterEnsure (env : Env) : Nat → State → State × Nat
  | 0, s => (s, 0)
  | Nat.succ n, s =>
    let r := ensureConnected env s
    let rest := iterEnsure env n r.2.1
    (rest.1, r.2.2.connects + rest.2)

/-- The four cached identity fields of a state, bundled for unchangedness
statements. -/
def identityOf (s : State) : Option String × Option String × Option String × Option String :=
  (s.completeAddress, s.address, s.chainId, s.version)

/-- Whether reading the four statuses of the bundled response passes the
all-ok check of ensureConnected. -/
def firstFourOk (rs : List ExecResult) : Bool :=
  match rs[0]?, rs[1]?, rs[2]?, rs[3]? with
  | some (ExecResult.ok _), some (ExecResult.ok _), some (ExecResult.ok _), some (ExecResult.ok _) => true
  | _, _, _, _ => false

end V1

namespace V3

/-- Required method list of the account-per-call variants, from the methods
module in the sources. -/
def aztecMethods : List String :=
  ["aztec_getContractClassMetadata", "aztec_getContractMetadata", "aztec_getPrivateEvents",
   "aztec_getChainInfo", "aztec_registerSender", "aztec_getAddressBook", "aztec_registerContract",
   "aztec_simulateTx", "aztec_simulateUtility", "aztec_profileTx", "aztec_sendTx",
   "aztec_createAuthWit"]

/-- Options record of the account-scoped methods: the string form of the
caller-supplied from address plus the remaining opaque option fields. -/
structure SendOptions where
  fromAddr : String
  rest : String
deriving DecidableEq

/-- Operation records built by the part_001 variant (the operations of
part_000 are the subset with the same shapes).  Accounts resolved by the
suffix search are plain strings; the simulateUtility account models
this.azguard.accounts[0], which may be undefined. -/
inductive Op where
  | registerContract (chain : String) (inst : String) (artifact : Option String)
      (secretKey : Option String)
  | registerSender (chain : String) (address : String) (aliasName : Option String)
  | sendTx (account : String) (exec : String) (opts : SendOptions)
  | simulateTx (account : String) (exec : String) (opts : SendOptions)
  | simulateUtility (account : Option String) (call : String) (opts : String)
  | getChainInfo (chain : String)
  | getContractMetadata (chain : String) (address : String)
  | getContractClassMetadata (chain : String) (id : String)
  | getAddressBook (chain : String)
  | getAccounts (chain : String)
  | getPrivateEvents (chain : String) (eventMetadata : String) (eventFilter : String)
  | profileTx (account : String) (exec : String) (opts : SendOptions)
  | createAuthWit (account : String) (messageHashOrIntent : String)
deriving DecidableEq

/-- One entry of the ordered method-call list handed to batch.  The other
constructor stands for a call whose runtime name is none of the recognized
case labels, which the default case of both switch statements rejects. -/
inductive BMethod where
  | registerContract (inst : String) (artifact : Option String) (secretKey : Option String)
  | registerSender (address : String) (aliasName : Option String)
  | sendTx (exec : String) (opts : SendOptions)
  | simulateTx (exec : String) (opts : SendOptions)
  | simulateUtility (call : String) (opts : String)
  | getChainInfo
  | getContractMetadata (address : String)
  | getContractClassMetadata (id : String)
  | getAddressBook
  | getAccounts
  | getPrivateEvents (eventMetadata : String) (eventFilter : String)
  | profileTx (exec : String) (opts : SendOptions)
  | createAuthWit (fromAddr : String) (messageHashOrIntent : String)
  | requestCapabilities (manifest : String)
  | other (name : String)
deriving DecidableEq

/-- Runtime name of a batch entry, as dispatched on by both switch statements. -/
def BMethod.name : BMethod → String
  | .registerContract .. => "registerContract"
  | .registerSender .. => "registerSender"
  | .sendTx .. => "sendTx"
  | .simulateTx .. => "simulateTx"
  | .simulateUtility .. => "simulateUtility"
  | .getChainInfo => "getChainInfo"
  | .getContractMetadata _ => "getContractMetadata"
  | .getContractClassMetadata _ => "getContractClassMetadata"
  | .getAddressBook => "getAddressBook"
  | .getAccounts => "getAccounts"
  | .getPrivateEvents .. => "getPrivateEvents"
  | .profileTx .. => "profileTx"
  | .createAuthWit .. => "createAuthWit"
  | .requestCapabilities _ => "requestCapabilities"
  | .other n => n

/-- The caller-supplied from address of an account-scoped batch entry, none
for entries that are not account-scoped. -/
def BMethod.fromAddr? : BMethod → Option String
  | .sendTx _ opts => some opts.fromAddr
  | .simulateTx _ opts => some opts.fromAddr
  | .profileTx _ opts => some opts.fromAddr
  | .createAuthWit f _ => some f
  | _ => none

/-- One decoded batch output entry, carrying the method name alongside the
validated result. -/
structure BOut where
  name : String
  result : String
deriving DecidableEq

/-- Adapter state of the part_001 variant: only the client session state; this
variant caches no identity. -/
structure State where
  connected : Bool
  accounts : List String
  chain : String
deriving DecidableEq

/-- Oracle for the external client and the external result schemas of this
variant. -/
structure Env where
  connectOk : Bool
  connectAccounts : List String
  executeResp : List Op → List ExecResult
  contractInstanceWithAddressSchema : String → Option String
  aztecAddressSchema : String → Option String
  txHashOrReceiptSchema : String → Option String
  txSimulationResultSchema : String → Option String
  utilitySimulationResultSchema : String → Option String
  chainInfoSchema : String → Option String
  contractMetadataSchema : String → Option String
  contractClassMetadataSchema : String → Option String
  addressBookSchema : String → Option String
  txProfileResultSchema : String → Option String
  authWitnessSchema : String → Option String

/-- Client disconnect for this variant: part_001 registers no handler on the
disconnected event, so only the session flag drops. -/
def clientDisconnect (s : State) : State :=
  { s with connected := false }

/-- Handler for the permissions-changed event (part_001 lines 131-139,
line-identical in part_000 lines 115-123). -/
def onPermissionsChanged (permissions : List DappPermissions) (s : State) : State :=
  if aztecMethods.any (fun x => !(methodCovered permissions s.chain x)) then
    clientDisconnect s
  else s

/-- Model of the private ensureConnected of part_001 (lines 141-150,
line-identical in part_000 lines 125-134): connect the client when it is not
connected; nothing else. -/
def ensureConnected (env : Env) (s : State) : Except WErr Unit × State × Trace Op :=
  if !s.connected then
    if env.connectOk then
      (Except.ok (), { s with connected := true, accounts := env.connectAccounts }, ⟨1, []⟩)
    else
      (Except.error WErr.connection, s, ⟨1, []⟩)
  else
    (Except.ok (), s, ⟨0, []⟩)

/-- Model of the private execute of part_001 (lines 157-167, line-identical in
part_000 lines 141-151). -/
def execute (env : Env) (schema : String → Option String) (operation : Op) (s : State) :
    Except WErr String × State × Trace Op :=
  match ensureConnected env s with
  | (Except.error e, s1, t1) => (Except.error e, s1, t1)
  | (Except.ok _, s1, t1) =>
    let results := env.executeResp [operation]
    let t2 : Trace Op := ⟨t1.connects, t1.executes ++ [[operation]]⟩
    match results.head? with
    | none => (Except.error WErr.agentProtocol, s1, t2)
    | some (ExecResult.failed e) => (Except.error (WErr.operationFailed e), s1, t2)
    | some ExecResult.skipped => (Except.error WErr.operationSkipped, s1, t2)
    | some (ExecResult.ok raw) =>
      match schema raw with
      | none => (Except.error WErr.validation, s1, t2)
      | some v => (Except.ok v, s1, t2)

/-- Model of part_001 sendTx (lines 281-297; part_000 lines 275-287 is the
same code with the plain TxHash schema): ensure a live session, resolve the
account whose identifier ends with the string form of the from option, reject
with the Unauthorized error when none is found (or when the found identifier
is the falsy empty string), then dispatch through execute. -/
def sendTx (env : Env) (exec : String) (opts : SendOptions) (s : State) :
    Except WErr String × State × Trace Op :=
  match ensureConnected env s with
  | (Except.error e, s1, t1) => (Except.error e, s1, t1)
  | (Except.ok _, s1, t1) =>
    match s1.accounts.find? (fun x => jsEndsWith x opts.fromAddr) with
    | none => (Except.error WErr.unauthorized, s1, t1)
    | some account =>
      if account == "" then (Except.error WErr.unauthorized, s1, t1)
      else
        let r := execute env env.txHashOrReceiptSchema (Op.sendTx account exec opts) s1
        (r.1, r.2.1, t1.append r.2.2)

/-- Model of part_001 simulateTx (lines 241-253). -/
def simulateTx (env : Env) (exec : String) (opts : SendOptions) (s : State) :
    Except WErr String × State × Trace Op :=
  match ensureConnected env s with
  | (Except.error e, s1, t1) => (Except.error e, s1, t1)
  | (Except.ok _, s1, t1) =>
    match s1.accounts.find? (fun x => jsEndsWith x opts.fromAddr) with
    | none => (Except.error WErr.unauthorized, s1, t1)
    | some account =>
      if account == "" then (Except.error WErr.unauthorized, s1, t1)
      else
        let r := execute env env.txSimulationResultSchema (Op.simulateTx account exec opts) s1
        (r.1, r.2.1, t1.append r.2.2)

/-- Model of part_001 profileTx (lines 267-279). -/
def profileTx (env : Env) (exec : String) (opts : SendOptions) (s : State) :
    Except WErr String × State × Trace Op :=
  match ensureConnected env s with
  | (Except.error e, s1, t1) => (Except.error e, s1, t1)
  | (Except.ok _, s1, t1) =>
    match s1.accounts.find? (fun x => jsEndsWith x opts.fromAddr) with
    | none => (Except.error WErr.unauthorized, s1, t1)
    | some account =>
      if account == "" then (Except.error WErr.unauthorized, s1, t1)
      else
        let r := execute env env.txProfileResultSchema (Op.profileTx account exec opts) s1
        (r.1, r.2.1, t1.append r.2.2)

/-- Model of part_001 createAuthWit (lines 299-313). -/
def createAuthWit (env : Env) (fromAddr : String) (messageHashOrIntent : String) (s : State) :
    Except WErr String × State × Trace Op :=
  match ensureConnected env s with
  | (Except.error e, s1, t1) => (Except.error e, s1, t1)
  | (Except.ok _, s1, t1) =>
    match s1.accounts.find? (fun x => jsEndsWith x fromAddr) with
    | none => (Except.error WErr.unauthorized, s1, t1)
    | some account =>
      if account == "" then (Except.error WErr.unauthorized, s1, t1)
      else
        let r := execute env env.authWitnessSchema (Op.createAuthWit account messageHashOrIntent) s1
        (r.1, r.2.1, t1.append r.2.2)

/-- WalletCapabilities result type; part_001 returns an empty object. -/
structure WalletCapabilities
deriving DecidableEq

/-- Model of part_001 requestCapabilities (lines 315-318): capability
negotiation is not implemented; the method immediately returns an empty
capabilities object without touching the client or any adapter state. -/
def requestCapabilities (env : Env) (manifest : String) (s : State) :
    Except WErr WalletCapabilities × State × Trace Op :=
  (Except.ok ⟨⟩, s, ⟨0, []⟩)

/-- Encode one batch entry (part_001 lines 326-476): chain-scoped entries map
directly to their operation record; account-scoped entries re-resolve the
suffix-matching account and reject with the Unauthorized error otherwise; the
requestCapabilities label and any unrecognized name hit the default throw.
The account call inside the simulateUtility case reduces to accounts[0]
because batch has already ensured the session and the model is sequential. -/
def encodeMethod (s : State) : BMethod → Except WErr Op
  | .registerContract inst artifact secretKey =>
      Except.ok (Op.registerContract s.chain inst artifact secretKey)
  | .registerSender address aliasName =>
      Except.ok (Op.registerSender s.chain address aliasName)
  | .sendTx exec opts =>
      match s.accounts.find? (fun x => jsEndsWith x opts.fromAddr) with
      | none => Except.error WErr.unauthorized
      | some account =>
        if account == "" then Except.error WErr.unauthorized
        else Except.ok (Op.sendTx account exec opts)
  | .simulateTx exec opts =>
      match s.accounts.find? (fun x => jsEndsWith x opts.fromAddr) with
      | none => Except.error WErr.unauthorized
      | some account =>
        if account == "" then Except.error WErr.unauthorized
        else Except.ok (Op.simulateTx account exec opts)
  | .simulateUtility call opts =>
      Except.ok (Op.simulateUtility s.accounts.head? call opts)
  | .getChainInfo => Except.ok (Op.getChainInfo s.chain)
  | .getContractMetadata address => Except.ok (Op.getContractMetadata s.chain address)
  | .getContractClassMetadata id => Except.ok (Op.getContractClassMetadata s.chain id)
  | .getAddressBook => Except.ok (Op.getAddressBook s.chain)
  | .getAccounts => Except.ok (Op.getAccounts s.chain)
  | .getPrivateEvents eventMetadata eventFilter =>
      Except.ok (Op.getPrivateEvents s.chain eventMetadata eventFilter)
  | .profileTx exec opts =>
      match s.accounts.find? (fun x => jsEndsWith x opts.fromAddr) with
      | none => Except.error WErr.unauthorized
      | some account =>
        if account == "" then Except.error WErr.unauthorized
        else Except.ok (Op.profileTx account exec opts)
  | .createAuthWit fromAddr messageHashOrIntent =>
      match s.accounts.find? (fun x => jsEndsWith x fromAddr) with
      | none => Except.error WErr.unauthorized
      | some account =>
        if account == "" then Except.error WErr.unauthorized
        else Except.ok (Op.createAuthWit account messageHashOrIntent)
  | .requestCapabilities _ => Except.error WErr.unsupportedBatch
  | .other _ => Except.error WErr.unsupportedBatch

/-- Encode phase of batch: the whole ordered list is encoded before anything
is submitted, and the first failing entry aborts the phase with its error. -/
def encodePhase (s : State) : List BMethod → Except WErr (List Op)
  | [] => Except.ok []
  | m :: ms =>
    match encodeMethod s m with
    | Except.error e => Except.error e
    | Except.ok op =>
      match encodePhase s ms with
      | Except.error e => Except.error e
      | Except.ok ops => Except.ok (op :: ops)

/-- Result schema paired with a batchable method name in the decode switch
(part_001 lines 490-586); none for the labels that hit the default throw.
The getPrivateEvents schema is z.any, which accepts every payload. -/
def schemaFor (env : Env) : BMethod → Option (String → Option String)
  | .registerContract .. => some env.contractInstanceWithAddressSchema
  | .registerSender .. => some env.aztecAddressSchema
  | .sendTx .. => some env.txHashOrReceiptSchema
  | .simulateTx .. => some env.txSimulationResultSchema
  | .simulateUtility .. => some env.utilitySimulationResultSchema
  | .getChainInfo => some env.chainInfoSchema
  | .getContractMetadata _ => some env.contractMetadataSchema
  | .getContractClassMetadata _ => some env.contractClassMetadataSchema
  | .getAddressBook => some env.addressBookSchema
  | .getAccounts => some env.addressBookSchema
  | .getPrivateEvents .. => some (fun r => some r)
  | .profileTx .. => some env.txProfileResultSchema
  | .createAuthWit .. => some env.authWitnessSchema
  | .requestCapabilities _ => none
  | .other _ => none

/-- Decode phase of batch (part_001 lines 480-587): walk the result list in
order against the method list; a failed or skipped result fails the whole
batch at once with an error naming the method at that position; an ok result
is validated by the schema of that method and collected.  The Nat component
counts how many schema validations were performed.  A result beyond the
method list makes the source read the name of an undefined entry, a runtime
TypeError; results shorter than the method list merely end the loop early. -/
def decodePhase (env : Env) : List BMethod → List ExecResult → Except WErr (List BOut) × Nat
  | _, [] => (Except.ok [], 0)
  | [], _ :: _ => (Except.error WErr.agentProtocol, 0)
  | m :: ms, r :: rs =>
    match r with
    | ExecResult.failed e => (Except.error (WErr.batchFailed m.name e), 0)
    | ExecResult.skipped => (Except.error (WErr.batchSkipped m.name), 0)
    | ExecResult.ok raw =>
      match schemaFor env m with
      | none => (Except.error WErr.unsupportedBatch, 0)
      | some sch =>
        match sch raw with
        | none => (Except.error WErr.validation, 1)
        | some v =>
          match decodePhase env ms rs with
          | (Except.error e, n) => (Except.error e, n + 1)
          | (Except.ok outs, n) => (Except.ok (⟨m.name, v⟩ :: outs), n + 1)

/-- Model of part_001 batch (lines 320-590): ensure the session once, encode
the whole ordered entry list, submit it as one execute call, then decode the
results positionally. -/
def batch (env : Env) (methods : List BMethod) (s : State) :
    Except WErr (List BOut) × State × Trace Op :=
  match ensureConnected env s with
  | (Except.error e, s1, t1) => (Except.error e, s1, t1)
  | (Except.ok _, s1, t1) =>
    match encodePhase s1 methods with
    | Except.error e => (Except.error e, s1, t1)
    | Except.ok operations =>
      let results := env.executeResp operations
      let t2 : Trace Op := ⟨t1.connects, t1.executes ++ [operations]⟩
      ((decodePhase env methods results).1, s1, t2)

/-- Repeated ensureConnected calls with no intervening disconnect, counting the
client connect calls issued over the whole sequence. -/
def iterEnsure (env : Env) : Nat → State → State × Nat
  | 0, s => (s, 0)
  | Nat.succ n, s =>
    let r := ensureConnected env s
    let rest := iterEnsure env n r.2.1
    (rest.1, r.2.2.connects + rest.2)

/-- The error of a failed or skipped batch result at a method with the given
name, as raised by the decode phase. -/
def badErr (method : String) : ExecResult → WErr
  | ExecResult.failed e => WErr.batchFailed method e
  | _ => WErr.batchSkipped method

/-- Whether a batch entry carries one of the supported batchable case labels
of the two switch statements (the requestCapabilities label and every
unrecognized name fall into the default throw). -/
def BMethod.isBatchable : BMethod → Bool
  | .requestCapabilities _ => false
  | .other _ => false
  | _ => true

end V3

/-- Whether a batch result aborts the decode phase. -/
def ExecResult.isBad : ExecResult → Bool
  | ExecResult.failed _ => true
  | ExecResult.skipped => true
  | ExecResult.ok _ => false

/- Concrete fixtures used by the witnesses and counterexamples. -/

/-- Concrete client account list used by the witnesses. -/
def wAccounts : List String := ["aztec:11155111:0xabc"]

/-- Concrete live state of the identity-caching variant with a cached
identity. -/
def wS1 : V1.State :=
  ⟨true, wAccounts, "aztec:11155111", some "W", some "0xabc", some "1", some "2"⟩

/-- Concrete state of the identity-caching variant that is connected with
nothing cached yet. -/
def wS1fresh : V1.State :=
  ⟨true, wAccounts, "aztec:11155111", none, none, none, none⟩

/-- Concrete environment whose agent answers every bundle with four ok results
and whose schemas accept every payload unchanged. -/
def wEnv1 : V1.Env :=
  ⟨true, wAccounts,
   fun _ => [ExecResult.ok "a", ExecResult.ok "b", ExecResult.ok "c", ExecResult.ok "d"],
   fun v => some v, fun v => some v, fun v => some v⟩

/-- Environment in which the identity bundle returns four ok sub-results, the
first schema accepts, and the second schema rejects its raw value. -/
def wEnv1bad : V1.Env :=
  ⟨true, wAccounts,
   fun _ => [ExecResult.ok "a", ExecResult.ok "b", ExecResult.ok "c", ExecResult.ok "d"],
   fun v => some v, fun _ => none, fun v => some v⟩

/-- Concrete connected state of the part_001 variant. -/
def wS3 : V3.State := ⟨true, wAccounts, "aztec:604129785"⟩

/-- Concrete environment of the part_001 variant: every schema accepts its
payload unchanged and the agent answers each operation with one ok result. -/
def wEnv3 : V3.Env :=
  ⟨true, wAccounts, fun ops => ops.map (fun _ => ExecResult.ok "res"),
   some, some, some, some, some, some, some, some, some, some, some⟩

/-- Environment of the part_001 variant in which the chain-info schema rejects
every payload and the agent answers with an ok result followed by a failed
result. -/
def wEnvC3 : V3.Env :=
  ⟨true, wAccounts, fun _ => [ExecResult.ok "bad", ExecResult.failed "boom"],
   some, some, some, some, some, fun _ => none, some, some, some, some, some⟩

/-- Environment of the part_001 variant in which every schema accepts and the
agent answers with an ok result followed by a failed result. -/
def wEnvC3w : V3.Env :=
  ⟨true, wAccounts, fun _ => [ExecResult.ok "x", ExecResult.failed "boom"],
   some, some, some, some, some, some, some, some, some, some, some⟩

/- Supporting lemmas. -/

/-- The identity fetch of the identity-caching variant never touches the
session flag and adds no connect call to the trace. -/
lemma fetchIdentity_frame (env : V1.Env) (s : V1.State) (t : Trace V1.Op) :
    ((V1.fetchIdentity env s t).2.1).connected = s.connected ∧
    ((V1.fetchIdentity env s t).2.2).connects = t.connects := by
  unfold V1.fetchIdentity
  constructor <;> dsimp only <;> (repeat' split) <;> simp

/-- While the client is connected, ensureConnected of the identity-caching
variant reduces to the identity fetch alone. -/
lemma ensure1_eq_of_connected (env : V1.Env) (s : V1.State) (h : s.connected = true) :
    V1.ensureConnected env s = V1.fetchIdentity env s ⟨0, []⟩ := by
  unfold V1.ensureConnected
  simp [h]

/-- While the client is connected, ensureConnected of the identity-caching
variant issues no connect call. -/
lemma ensure1_connects_zero (env : V1.Env) (s : V1.State) (h : s.connected = true) :
    (V1.ensureConnected env s).2.2.connects = 0 := by
  rw [ensure1_eq_of_connected env s h]
  exact (fetchIdentity_frame env s ⟨0, []⟩).2

/-- While the client is disconnected and the connect attempt succeeds,
ensureConnected of the identity-caching variant reduces to the identity fetch
on the freshly connected state. -/
lemma ensure1_eq_of_disconnected (env : V1.Env) (s : V1.State) (h : s.connected = false)
    (hc : env.connectOk = true) :
    V1.ensureConnected env s =
      V1.fetchIdentity env { s with connected := true, accounts := env.connectAccounts } ⟨1, []⟩ := by
  unfold V1.ensureConnected
  simp [h, hc]

/-- While the client is disconnected and the connect attempt succeeds,
ensureConnected of the identity-caching variant issues exactly one connect
call. -/
lemma ensure1_connects_one (env : V1.Env) (s : V1.State) (h : s.connected = false)
    (hc : env.connectOk = true) :
    (V1.ensureConnected env s).2.2.connects = 1 := by
  rw [ensure1_eq_of_disconnected env s h hc]
  exact (fetchIdentity_frame env _ _).2

/-- When the connect attempt succeeds, the state after ensureConnected of the
identity-caching variant is connected. -/
lemma ensure1_connected_after (env : V1.Env) (s : V1.State) (hc : env.connectOk = true) :
    ((V1.ensureConnected env s).2.1).connected = true := by
  cases h : s.connected with
  | false =>
    rw [ensure1_eq_of_disconnected env s h hc]
    exact (fetchIdentity_frame env _ _).1
  | true =>
    rw [ensure1_eq_of_connected env s h, (fetchIdentity_frame env s ⟨0, []⟩).1]
    exact h

/-- A run of ensureConnected calls of the identity-caching variant that starts
connected never calls connect. -/
lemma iter1_zero (env : V1.Env) (n : Nat) (s : V1.State) (h : s.connected = true) :
    (V1.iterEnsure env n s).2 = 0 := by
  induction n generalizing s with
  | zero => rfl
  | succ n ih =>
    have h1 := ensure1_connects_zero env s h
    have h2 : ((V1.ensureConnected env s).2.1).connected = true := by
      rw [ensure1_eq_of_connected env s h, (fetchIdentity_frame env s ⟨0, []⟩).1]
      exact h
    simp [V1.iterEnsure, h1, ih _ h2]

/-- While the client is connected, ensureConnected of the part_001 variant is
a complete no-op. -/
lemma ensure3_noop (env : V3.Env) (s : V3.State) (h : s.connected = true) :
    V3.ensureConnected env s = (Except.ok (), s, ⟨0, []⟩) := by
  unfold V3.ensureConnected
  simp [h]

/-- A run of ensureConnected calls of the part_001 variant that starts
connected never calls connect. -/
lemma iter3_zero (env : V3.Env) (n : Nat) (s : V3.State) (h : s.connected = true) :
    (V3.iterEnsure env n s).2 = 0 := by
  induction n generalizing s with
  | zero => rfl
  | succ n ih =>
    simp [V3.iterEnsure, ensure3_noop env s h, ih s h]

/- Claim theorems. -/

/-- Claim C10 (confirmed): requestCapabilities of the part_001 variant returns
an empty capabilities object for every manifest argument, sends no execute
request, performs no connect, and leaves the adapter state unchanged:
capability negotiation is not implemented. -/
theorem claim_C10 (env : V3.Env) (manifest : String) (s : V3.State) :
    V3.requestCapabilities env manifest s = (Except.ok ⟨⟩, s, ⟨0, []⟩) := rfl

/-- Claim C7 (confirmed): a permissions-changed event whose new list leaves
some method of the required set uncovered for the adapter chain
force-disconnects the session (stated for the identity-caching variant with
an arbitrary required list, since its concrete list is not among the sources,
and for the part_001 variant with its concrete required list); when every
required method stays covered for the chain the state is left intact. -/
theorem claim_C7 :
    (∀ (aztecMethods : List String) (permissions : List DappPermissions) (s : V1.State),
      (∃ m ∈ aztecMethods, methodCovered permissions s.chain m = false) →
      (V1.onPermissionsChanged aztecMethods permissions s).connected = false) ∧
    (∀ (aztecMethods : List String) (permissions : List DappPermissions) (s : V1.State),
      (∀ m ∈ aztecMethods, methodCovered permissions s.chain m = true) →
      V1.onPermissionsChanged aztecMethods permissions s = s) ∧
    (∀ (permissions : List DappPermissions) (s : V3.State),
      (∃ m ∈ V3.aztecMethods, methodCovered permissions s.chain m = false) →
      (V3.onPermissionsChanged permissions s).connected = false) ∧
    (∀ (permissions : List DappPermissions) (s : V3.State),
      (∀ m ∈ V3.aztecMethods, methodCovered permissions s.chain m = true) →
      V3.onPermissionsChanged permissions s = s) := by
  refine ⟨?_, ?_, ?_, ?_⟩
  · intro ms perms s h
    obtain ⟨m, hm, hcov⟩ := h
    have hany : ms.any (fun x => !(methodCovered perms s.chain x)) = true :=
      List.any_eq_true.mpr ⟨m, hm, by simp [hcov]⟩
    simp [V1.onPermissionsChanged, hany, V1.clientDisconnect]
  · intro ms perms s h
    have hany : ms.any (fun x => !(methodCovered perms s.chain x)) = false := by
      simp only [List.any_eq_false]
      intro x hx
      simp [h x hx]
    simp [V1.onPermissionsChanged, hany]
  · intro perms s h
    obtain ⟨m, hm, hcov⟩ := h
    have hany : V3.aztecMethods.any (fun x => !(methodCovered perms s.chain x)) = true :=
      List.any_eq_true.mpr ⟨m, hm, by simp [hcov]⟩
    simp [V3.onPermissionsChanged, hany, V3.clientDisconnect]
  · intro perms s h
    have hany : V3.aztecMethods.any (fun x => !(methodCovered perms s.chain x)) = false := by
      simp only [List.any_eq_false]
      intro x hx
      simp [h x hx]
    simp [V3.onPermissionsChanged, hany]

/-- Witness for claim C7 at concrete inputs: an empty permission list kills
the session, and a full grant leaves it intact, in both variants. -/
theorem claim_C7_witness :
    (V1.onPermissionsChanged ["aztec_sendTx"] [] wS1).connected = false ∧
    V1.onPermissionsChanged ["aztec_sendTx"]
      [⟨some ["aztec:11155111"], some ["aztec_sendTx"]⟩] wS1 = wS1 ∧
    (V3.onPermissionsChanged [] wS3).connected = false ∧
    V3.onPermissionsChanged [⟨some ["aztec:604129785"], some V3.aztecMethods⟩] wS3 = wS3 := by
  refine ⟨claim_C7.1 _ _ _ ?_, claim_C7.2.1 _ _ _ ?_,
          claim_C7.2.2.1 _ _ ?_, claim_C7.2.2.2 _ _ ?_⟩ <;> decide

/-- Claim C6 (confirmed): in the identity-caching variant, when an
accounts-changed event reports a list in which no identifier ends with the
string form of the cached account address (an address string form is nonempty,
hence the truthiness hypothesis), the adapter force-disconnects: connected
becomes false and each of the four identity accessors, which only read the
cache and never reconnect, then fails with the StaleIdentityError. -/
theorem claim_C6 (accounts : List String) (s : V1.State) (ca : String)
    (h1 : s.address = some ca) (h2 : ca ≠ "")
    (h3 : ∀ a ∈ accounts, jsEndsWith a ca = false) :
    (V1.onAccountsChanged accounts s).connected = false ∧
    V1.getAddress (V1.onAccountsChanged accounts s) = Except.error WErr.disconnectedByUser ∧
    V1.getCompleteAddress (V1.onAccountsChanged accounts s) = Except.error WErr.disconnectedByUser ∧
    V1.getChainId (V1.onAccountsChanged accounts s) = Except.error WErr.disconnectedByUser ∧
    V1.getVersion (V1.onAccountsChanged accounts s) = Except.error WErr.disconnectedByUser := by
  have hany : accounts.any (fun x => jsEndsWith x ca) = false := by
    simp only [List.any_eq_false]
    intro a ha
    simp [h3 a ha]
  have hbne : (ca != "") = true := bne_iff_ne.mpr h2
  simp [V1.onAccountsChanged, h1, hany, hbne, V1.clientDisconnect, V1.getAddress,
        V1.getCompleteAddress, V1.getChainId, V1.getVersion]

/-- Witness for claim C6: a reported list that no longer carries the cached
address 0xabc kills the session and every accessor. -/
theorem claim_C6_witness :
    (V1.onAccountsChanged ["aztec:11155111:0xother"] wS1).connected = false ∧
    V1.getAddress (V1.onAccountsChanged ["aztec:11155111:0xother"] wS1) =
      Except.error WErr.disconnectedByUser ∧
    V1.getCompleteAddress (V1.onAccountsChanged ["aztec:11155111:0xother"] wS1) =
      Except.error WErr.disconnectedByUser ∧
    V1.getChainId (V1.onAccountsChanged ["aztec:11155111:0xother"] wS1) =
      Except.error WErr.disconnectedByUser ∧
    V1.getVersion (V1.onAccountsChanged ["aztec:11155111:0xother"] wS1) =
      Except.error WErr.disconnectedByUser :=
  claim_C6 ["aztec:11155111:0xother"] wS1 "0xabc" rfl (by decide) (by decide)

/-- Claim C5 (confirmed): ensureConnected is idempotent in both cited
variants: while already connected it issues no client connect call (and in the
part_001 variant it is a complete no-op, and even a full operation dispatch
issues no connect call), and over any run of ensureConnected calls with no
intervening disconnect the client connect is invoked at most once, provided
connect attempts succeed. -/
theorem claim_C5 :
    (∀ (env : V1.Env) (s : V1.State), s.connected = true →
      (V1.ensureConnected env s).2.2.connects = 0) ∧
    (∀ (env : V3.Env) (s : V3.State), s.connected = true →
      V3.ensureConnected env s = (Except.ok (), s, ⟨0, []⟩)) ∧
    (∀ (env : V1.Env) (n : Nat) (s : V1.State), env.connectOk = true →
      (V1.iterEnsure env n s).2 ≤ 1) ∧
    (∀ (env : V3.Env) (n : Nat) (s : V3.State), env.connectOk = true →
      (V3.iterEnsure env n s).2 ≤ 1) ∧
    (∀ (env : V3.Env) (schema : String → Option String) (op : V3.Op) (s : V3.State),
      s.connected = true → (V3.execute env schema op s).2.2.connects = 0) := by
  refine ⟨ensure1_connects_zero, ensure3_noop, ?_, ?_, ?_⟩
  · intro env n s hc
    cases h : s.connected with
    | true => simp [iter1_zero env n s h]
    | false =>
      cases n with
      | zero => simp [V1.iterEnsure]
      | succ n =>
        have h1 := ensure1_connects_one env s h hc
        have h2 := ensure1_connected_after env s hc
        simp [V1.iterEnsure, h1, iter1_zero env n _ h2]
  · intro env n s hc
    cases h : s.connected with
    | true => simp [iter3_zero env n s h]
    | false =>
      cases n with
      | zero => simp [V3.iterEnsure]
      | succ n =>
        have h1 : V3.ensureConnected env s =
            (Except.ok (), { s with connected := true, accounts := env.connectAccounts }, ⟨1, []⟩) := by
          unfold V3.ensureConnected
          simp [h, hc]
        have h2 := iter3_zero env n { s with connected := true, accounts := env.connectAccounts } rfl
        simp [V3.iterEnsure, h1, h2]
  · intro env schema op s h
    simp only [V3.execute, ensure3_noop env s h]
    repeat' split
    all_goals simp

/-- Witness for claim C5 at concrete inputs: three ensureConnected calls in a
row on an already connected adapter, and on a disconnected one, never exceed
one connect. -/
theorem claim_C5_witness :
    (V1.ensureConnected wEnv1 wS1).2.2.connects = 0 ∧
    V3.ensureConnected wEnv3 wS3 = (Except.ok (), wS3, ⟨0, []⟩) ∧
    (V1.iterEnsure wEnv1 3 wS1).2 ≤ 1 ∧
    (V3.iterEnsure wEnv3 3 ⟨false, [], "aztec:604129785"⟩).2 ≤ 1 ∧
    (V3.execute wEnv3 some (V3.Op.getChainInfo "aztec:604129785") wS3).2.2.connects = 0 :=
  ⟨claim_C5.1 wEnv1 wS1 rfl, claim_C5.2.1 wEnv3 wS3 rfl,
   claim_C5.2.2.1 wEnv1 3 wS1 rfl, claim_C5.2.2.2.1 wEnv3 3 _ rfl,
   claim_C5.2.2.2.2 wEnv3 some (V3.Op.getChainInfo "aztec:604129785") wS3 rfl⟩

/-- Claim C8 (confirmed): with a live session, a single-operation dispatch
through the private execute submits the operation as a batch of size one to
the agent (the trace records exactly one execute call carrying exactly that
operation) and takes the first result, mapping it exactly as follows: a failed
result throws the OperationFailedError carrying the agent message, a skipped
result throws the OperationSkippedError, an ok result is passed through the
caller-supplied schema and the validated value is returned, or the
ValidationError is thrown when the raw payload does not conform.  Stated for
the identity-caching variant; the part_001 execute is line-identical. -/
theorem claim_C8 (env : V1.Env) (schema : String → Option String) (op : V1.Op) (s : V1.State)
    (h1 : s.connected = true) (h2 : s.version.isSome = true) :
    V1.execute env schema op s =
      ((match (env.executeResp [op]).head? with
        | none => Except.error WErr.agentProtocol
        | some (ExecResult.failed e) => Except.error (WErr.operationFailed e)
        | some ExecResult.skipped => Except.error WErr.operationSkipped
        | some (ExecResult.ok raw) =>
          match schema raw with
          | none => Except.error WErr.validation
          | some v => Except.ok v),
       s, ⟨0, [[op]]⟩) := by
  have hni : s.version.isNone = false := by
    cases hv : s.version with
    | none => rw [hv] at h2; simp at h2
    | some v => simp [hv]
  have hfi : V1.fetchIdentity env s ⟨0, []⟩ = (Except.ok (), s, ⟨0, []⟩) := by
    unfold V1.fetchIdentity
    simp [hni]
  simp only [V1.execute, ensure1_eq_of_connected env s h1, hfi]
  cases hh : (env.executeResp [op]).head? with
  | none => simp
  | some r =>
    cases r with
    | ok raw => cases hs : schema raw <;> simp [hs]
    | failed e => simp
    | skipped => simp

/-- Witness for claim C8: a concrete generic operation against an agent whose
first answer is ok with payload a, under the identity schema, returns a. -/
theorem claim_C8_witness :
    V1.execute wEnv1 some (V1.Op.generic "aztec_getNodeInfo" "p") wS1 =
      (Except.ok "a", wS1, ⟨0, [[V1.Op.generic "aztec_getNodeInfo" "p"]]⟩) := by
  rw [claim_C8 wEnv1 some (V1.Op.generic "aztec_getNodeInfo" "p") wS1 rfl rfl]
  rfl

/-- Claim C1 (corrected): the post-connect identity refresh is atomic with
respect to the status check but not with respect to schema validation.  After
a single ensureConnected call on a live session with no cached version: when
the status check fails (a sub-result missing or not ok) no identity field is
newly cached, and when all four sub-results are ok and all four schema
validations succeed all four fields are populated from them; but when the
k-th schema validation fails, the fields validated before position k have
already been cached while the remaining ones are unchanged, so a
schema-validation failure can leave the identity cache partially populated,
contrary to the claim as stated. -/
theorem claim_C1_amended (env : V1.Env) (s : V1.State)
    (hcon : s.connected = true) (hver : s.version = none) :
    (V1.firstFourOk (env.executeResp (V1.identityOps s)) = false →
      V1.identityOf (V1.ensureConnected env s).2.1 = V1.identityOf s ∧
      ∃ e, (V1.ensureConnected env s).1 = Except.error e) ∧
    (∀ v1 v2 v3 v4,
      (env.executeResp (V1.identityOps s))[0]? = some (ExecResult.ok v1) →
      (env.executeResp (V1.identityOps s))[1]? = some (ExecResult.ok v2) →
      (env.executeResp (V1.identityOps s))[2]? = some (ExecResult.ok v3) →
      (env.executeResp (V1.identityOps s))[3]? = some (ExecResult.ok v4) →
      (env.completeAddressSchema v1 = none →
        V1.identityOf (V1.ensureConnected env s).2.1 = V1.identityOf s ∧
        (V1.ensureConnected env s).1 = Except.error WErr.validation) ∧
      (∀ ca, env.completeAddressSchema v1 = some ca →
        env.aztecAddressSchema v2 = none →
        V1.identityOf (V1.ensureConnected env s).2.1 = (some ca, s.address, s.chainId, none) ∧
        (V1.ensureConnected env s).1 = Except.error WErr.validation) ∧
      (∀ ca ad, env.completeAddressSchema v1 = some ca →
        env.aztecAddressSchema v2 = some ad →
        env.frSchema v3 = none →
        V1.identityOf (V1.ensureConnected env s).2.1 = (some ca, some ad, s.chainId, none) ∧
        (V1.ensureConnected env s).1 = Except.error WErr.validation) ∧
      (∀ ca ad ci, env.completeAddressSchema v1 = some ca →
        env.aztecAddressSchema v2 = some ad →
        env.frSchema v3 = some ci →
        env.frSchema v4 = none →
        V1.identityOf (V1.ensureConnected env s).2.1 = (some ca, some ad, some ci, none) ∧
        (V1.ensureConnected env s).1 = Except.error WErr.validation) ∧
      (∀ ca ad ci ve, env.completeAddressSchema v1 = some ca →
        env.aztecAddressSchema v2 = some ad →
        env.frSchema v3 = some ci →
        env.frSchema v4 = some ve →
        V1.identityOf (V1.ensureConnected env s).2.1 = (some ca, some ad, some ci, some ve) ∧
        (V1.ensureConnected env s).1 = Except.ok ())) := by
  have heq := ensure1_eq_of_connected env s hcon
  have hni : s.version.isNone = true := by simp [hver]
  constructor
  · intro hbad
    rw [heq]
    unfold V1.fetchIdentity
    rcases hg0 : (env.executeResp (V1.identityOps s))[0]? with _ | r0
    · simp [hni, hg0, V1.subResult, V1.identityOf]
    rcases r0 with v0 | e0 | _
    rotate_left
    · simp [hni, hg0, V1.subResult, V1.identityOf]
    · simp [hni, hg0, V1.subResult, V1.identityOf]
    rcases hg1 : (env.executeResp (V1.identityOps s))[1]? with _ | r1
    · simp [hni, hg0, hg1, V1.subResult, V1.identityOf]
    rcases r1 with v1 | e1 | _
    rotate_left
    · simp [hni, hg0, hg1, V1.subResult, V1.identityOf]
    · simp [hni, hg0, hg1, V1.subResult, V1.identityOf]
    rcases hg2 : (env.executeResp (V1.identityOps s))[2]? with _ | r2
    · simp [hni, hg0, hg1, hg2, V1.subResult, V1.identityOf]
    rcases r2 with v2 | e2 | _
    rotate_left
    · simp [hni, hg0, hg1, hg2, V1.subResult, V1.identityOf]
    · simp [hni, hg0, hg1, hg2, V1.subResult, V1.identityOf]
    rcases hg3 : (env.executeResp (V1.identityOps s))[3]? with _ | r3
    · simp [hni, hg0, hg1, hg2, hg3, V1.subResult, V1.identityOf]
    rcases r3 with v3 | e3 | _
    rotate_left
    · simp [hni, hg0, hg1, hg2, hg3, V1.subResult, V1.identityOf]
    · simp [hni, hg0, hg1, hg2, hg3, V1.subResult, V1.identityOf]
    exact absurd hbad (by simp [V1.firstFourOk, hg0, hg1, hg2, hg3])
  · intro v1 v2 v3 v4 hg0 hg1 hg2 hg3
    rw [heq]
    unfold V1.fetchIdentity
    refine ⟨?_, ?_, ?_, ?_, ?_⟩
    · intro hs1
      simp [hni, hg0, hg1, hg2, hg3, V1.subResult, hs1, V1.identityOf]
    · intro ca hs1 hs2
      simp [hni, hg0, hg1, hg2, hg3, V1.subResult, hs1, hs2, V1.identityOf, hver]
    · intro ca ad hs1 hs2 hs3
      simp [hni, hg0, hg1, hg2, hg3, V1.subResult, hs1, hs2, hs3, V1.identityOf, hver]
    · intro ca ad ci hs1 hs2 hs3 hs4
      simp [hni, hg0, hg1, hg2, hg3, V1.subResult, hs1, hs2, hs3, hs4, V1.identityOf, hver]
    · intro ca ad ci ve hs1 hs2 hs3 hs4
      simp [hni, hg0, hg1, hg2, hg3, V1.subResult, hs1, hs2, hs3, hs4, V1.identityOf, hver]

/-- Witness for the amended claim C1: the fully successful path populates all
four identity fields from the four bundled sub-results. -/
theorem claim_C1_witness :
    V1.identityOf (V1.ensureConnected wEnv1 wS1fresh).2.1 =
      (some "a", some "b", some "c", some "d") ∧
    (V1.ensureConnected wEnv1 wS1fresh).1 = Except.ok () :=
  ((claim_C1_amended wEnv1 wS1fresh rfl rfl).2 "a" "b" "c" "d"
    rfl rfl rfl rfl).2.2.2.2 "a" "b" "c" "d" rfl rfl rfl rfl

/-- Counterexample for claim C1 as stated: one ensureConnected call on a
connected session with no cached identity, whose bundled fetch returns four
ok sub-results but whose second schema validation fails, ends with the
completeAddress field newly cached and the other three fields empty: a
failing bundled fetch has left a partially populated identity cache. -/
theorem claim_C1_counterexample :
    (V1.ensureConnected wEnv1bad wS1fresh).1 = Except.error WErr.validation ∧
    (V1.ensureConnected wEnv1bad wS1fresh).2.1.completeAddress = some "a" ∧
    (V1.ensureConnected wEnv1bad wS1fresh).2.1.address = none ∧
    (V1.ensureConnected wEnv1bad wS1fresh).2.1.chainId = none ∧
    (V1.ensureConnected wEnv1bad wS1fresh).2.1.version = none ∧
    V1.identityOf (V1.ensureConnected wEnv1bad wS1fresh).2.1 ≠ V1.identityOf wS1fresh :=
  ⟨rfl, rfl, rfl, rfl, rfl, by decide⟩

/- Batch support lemmas. -/

/-- An account-scoped entry whose from address matches no account suffix fails
its encoding with the Unauthorized error. -/
lemma encodeMethod_unauthorized (s : V3.State) (m : V3.BMethod) (f : String)
    (hf : m.fromAddr? = some f)
    (h : ∀ a ∈ s.accounts, jsEndsWith a f = false) :
    V3.encodeMethod s m = Except.error WErr.unauthorized := by
  have hfind : s.accounts.find? (fun x => jsEndsWith x f) = none :=
    List.find?_eq_none.mpr (fun a ha => by simp [h a ha])
  cases m with
  | sendTx exec opts =>
    simp only [V3.BMethod.fromAddr?, Option.some.injEq] at hf
    subst hf
    simp [V3.encodeMethod, hfind]
  | simulateTx exec opts =>
    simp only [V3.BMethod.fromAddr?, Option.some.injEq] at hf
    subst hf
    simp [V3.encodeMethod, hfind]
  | profileTx exec opts =>
    simp only [V3.BMethod.fromAddr?, Option.some.injEq] at hf
    subst hf
    simp [V3.encodeMethod, hfind]
  | createAuthWit fromAddr mh =>
    simp only [V3.BMethod.fromAddr?, Option.some.injEq] at hf
    subst hf
    simp [V3.encodeMethod, hfind]
  | registerContract inst artifact secretKey => simp [V3.BMethod.fromAddr?] at hf
  | registerSender address aliasName => simp [V3.BMethod.fromAddr?] at hf
  | simulateUtility call opts => simp [V3.BMethod.fromAddr?] at hf
  | getChainInfo => simp [V3.BMethod.fromAddr?] at hf
  | getContractMetadata address => simp [V3.BMethod.fromAddr?] at hf
  | getContractClassMetadata id => simp [V3.BMethod.fromAddr?] at hf
  | getAddressBook => simp [V3.BMethod.fromAddr?] at hf
  | getAccounts => simp [V3.BMethod.fromAddr?] at hf
  | getPrivateEvents md fl => simp [V3.BMethod.fromAddr?] at hf
  | requestCapabilities manifest => simp [V3.BMethod.fromAddr?] at hf
  | other n => simp [V3.BMethod.fromAddr?] at hf

/-- An entry without a supported batchable case label fails its encoding with
the UnsupportedMethodError. -/
lemma encodeMethod_unsupported (s : V3.State) (m : V3.BMethod)
    (h : m.isBatchable = false) :
    V3.encodeMethod s m = Except.error WErr.unsupportedBatch := by
  cases m <;> first
    | rfl
    | simp [V3.BMethod.isBatchable] at h

/-- The encode phase of a list with an entry that fails to encode fails. -/
lemma encodePhase_error_of_mem (s : V3.State) (ms : List V3.BMethod) (m : V3.BMethod)
    (hm : m ∈ ms) (e : WErr) (he : V3.encodeMethod s m = Except.error e) :
    ∃ e2, V3.encodePhase s ms = Except.error e2 := by
  induction ms with
  | nil => cases hm
  | cons m0 ms ih =>
    rcases List.mem_cons.mp hm with rfl | hm2
    · exact ⟨e, by simp [V3.encodePhase, he]⟩
    · cases h0 : V3.encodeMethod s m0 with
      | error e0 => exact ⟨e0, by simp [V3.encodePhase, h0]⟩
      | ok op0 =>
        obtain ⟨e2, h2⟩ := ih hm2
        exact ⟨e2, by simp [V3.encodePhase, h0, h2]⟩

/-- When the first failing entry of the encode phase sits at position i, the
encode phase fails with exactly that entry's error. -/
lemma encodePhase_first_error (s : V3.State) :
    ∀ (i : Nat) (ms : List V3.BMethod) (m : V3.BMethod) (e : WErr),
      ms[i]? = some m → V3.encodeMethod s m = Except.error e →
      (∀ k mk, k < i → ms[k]? = some mk → ∃ op, V3.encodeMethod s mk = Except.ok op) →
      V3.encodePhase s ms = Except.error e := by
  intro i
  induction i with
  | zero =>
    intro ms m e hm he hk
    cases ms with
    | nil => simp at hm
    | cons m0 ms =>
      simp only [List.getElem?_cons_zero, Option.some.injEq] at hm
      subst hm
      simp [V3.encodePhase, he]
  | succ i ih =>
    intro ms m e hm he hk
    cases ms with
    | nil => simp at hm
    | cons m0 ms =>
      obtain ⟨op0, h0⟩ := hk 0 m0 (Nat.succ_pos i) (List.getElem?_cons_zero)
      have hrest := ih ms m e (by simpa using hm) he
        (fun k mk hki hkm => hk (k + 1) mk (Nat.succ_lt_succ hki) (by simpa using hkm))
      simp [V3.encodePhase, h0, hrest]

/-- The encode phase produces exactly one operation per entry. -/
lemma encodePhase_length (s : V3.State) :
    ∀ (ms : List V3.BMethod) (ops : List V3.Op),
      V3.encodePhase s ms = Except.ok ops → ops.length = ms.length := by
  intro ms
  induction ms with
  | nil => intro ops h; simp [V3.encodePhase] at h; simp [← h]
  | cons m0 ms ih =>
    intro ops h
    cases h0 : V3.encodeMethod s m0 with
    | error e0 => simp [V3.encodePhase, h0] at h
    | ok op0 =>
      cases h1 : V3.encodePhase s ms with
      | error e1 => simp [V3.encodePhase, h0, h1] at h
      | ok ops1 =>
        simp only [V3.encodePhase, h0, h1, Except.ok.injEq] at h
        subst h
        simp [ih ops1 h1]

/-- A connected batch whose encode phase fails returns that error with no
execute call. -/
lemma batch_encode_error (env : V3.Env) (s : V3.State) (methods : List V3.BMethod) (e : WErr)
    (h1 : s.connected = true) (h2 : V3.encodePhase s methods = Except.error e) :
    V3.batch env methods s = (Except.error e, s, ⟨0, []⟩) := by
  simp [V3.batch, ensure3_noop env s h1, h2]

/-- A connected batch whose encode phase succeeds submits exactly one execute
call carrying the encoded operations and returns the decode of the agent
results. -/
lemma batch_encode_ok (env : V3.Env) (s : V3.State) (methods : List V3.BMethod)
    (ops : List V3.Op)
    (h1 : s.connected = true) (h2 : V3.encodePhase s methods = Except.ok ops) :
    V3.batch env methods s =
      ((V3.decodePhase env methods (env.executeResp ops)).1, s, ⟨0, [ops]⟩) := by
  simp [V3.batch, ensure3_noop env s h1, h2]

/-- A connected batch with an entry at position i that fails to encode raises
an error before any execute call; when every earlier entry encodes, the error
is exactly that entry's one. -/
lemma batch_encode_fails (env : V3.Env) (s : V3.State) (methods : List V3.BMethod)
    (i : Nat) (m : V3.BMethod) (e : WErr)
    (h1 : s.connected = true) (hm : methods[i]? = some m)
    (he : V3.encodeMethod s m = Except.error e) :
    (∃ e2, (V3.batch env methods s).1 = Except.error e2) ∧
    (V3.batch env methods s).2.2.executes = [] ∧
    ((∀ k mk, k < i → methods[k]? = some mk → ∃ op, V3.encodeMethod s mk = Except.ok op) →
      (V3.batch env methods s).1 = Except.error e) := by
  have hmem : m ∈ methods := List.getElem?_mem hm
  obtain ⟨e2, h2⟩ := encodePhase_error_of_mem s methods m hmem e he
  refine ⟨⟨e2, by rw [batch_encode_error env s methods e2 h1 h2]⟩,
          by rw [batch_encode_error env s methods e2 h1 h2], fun hk => ?_⟩
  have h3 := encodePhase_first_error s i methods m e hm he hk
  rw [batch_encode_error env s methods e h1 h3]

/-- Claim C2 (corrected): for the four account-scoped single calls of the
part_001 variant (line-identical in part_000), when no session account
identifier ends with the string form of the supplied from address the call
throws the UnauthorizedAccountError and sends no execute request; the
resolution really is the textual suffix search, and the account it finds is
the one placed in the submitted operation.  For a batch entry the same holds
with one exception the claim does not state: an entry with an unrecognized
name positioned earlier in the batch makes the whole batch throw the
UnsupportedMethodError first, so the batch part below concludes the
UnauthorizedAccountError only when every earlier entry encodes; an error is
raised and no execute request is sent in every case. -/
theorem claim_C2_amended :
    (∀ (env : V3.Env) (exec : String) (opts : V3.SendOptions) (s : V3.State),
      s.connected = true →
      (∀ a ∈ s.accounts, jsEndsWith a opts.fromAddr = false) →
      V3.sendTx env exec opts s = (Except.error WErr.unauthorized, s, ⟨0, []⟩)) ∧
    (∀ (env : V3.Env) (exec : String) (opts : V3.SendOptions) (s : V3.State),
      s.connected = true →
      (∀ a ∈ s.accounts, jsEndsWith a opts.fromAddr = false) →
      V3.simulateTx env exec opts s = (Except.error WErr.unauthorized, s, ⟨0, []⟩)) ∧
    (∀ (env : V3.Env) (exec : String) (opts : V3.SendOptions) (s : V3.State),
      s.connected = true →
      (∀ a ∈ s.accounts, jsEndsWith a opts.fromAddr = false) →
      V3.profileTx env exec opts s = (Except.error WErr.unauthorized, s, ⟨0, []⟩)) ∧
    (∀ (env : V3.Env) (fromAddr mh : String) (s : V3.State),
      s.connected = true →
      (∀ a ∈ s.accounts, jsEndsWith a fromAddr = false) →
      V3.createAuthWit env fromAddr mh s = (Except.error WErr.unauthorized, s, ⟨0, []⟩)) ∧
    (∀ (env : V3.Env) (s : V3.State) (methods : List V3.BMethod) (i : Nat)
        (m : V3.BMethod) (f : String),
      s.connected = true → methods[i]? = some m → m.fromAddr? = some f →
      (∀ a ∈ s.accounts, jsEndsWith a f = false) →
      (∃ e, (V3.batch env methods s).1 = Except.error e) ∧
      (V3.batch env methods s).2.2.executes = [] ∧
      ((∀ k mk, k < i → methods[k]? = some mk → ∃ op, V3.encodeMethod s mk = Except.ok op) →
        (V3.batch env methods s).1 = Except.error WErr.unauthorized)) ∧
    (∀ (env : V3.Env) (exec : String) (opts : V3.SendOptions) (s : V3.State)
        (account : String),
      s.connected = true →
      s.accounts.find? (fun x => jsEndsWith x opts.fromAddr) = some account →
      (account == "") = false →
      (V3.sendTx env exec opts s).2.2.executes = [[V3.Op.sendTx account exec opts]]) := by
  have hnone : ∀ (s : V3.State) (f : String),
      (∀ a ∈ s.accounts, jsEndsWith a f = false) →
      s.accounts.find? (fun x => jsEndsWith x f) = none :=
    fun s f h => List.find?_eq_none.mpr (fun a ha => by simp [h a ha])
  refine ⟨?_, ?_, ?_, ?_, ?_, ?_⟩
  · intro env exec opts s h1 h2
    simp [V3.sendTx, ensure3_noop env s h1, hnone s opts.fromAddr h2]
  · intro env exec opts s h1 h2
    simp [V3.simulateTx, ensure3_noop env s h1, hnone s opts.fromAddr h2]
  · intro env exec opts s h1 h2
    simp [V3.profileTx, ensure3_noop env s h1, hnone s opts.fromAddr h2]
  · intro env fromAddr mh s h1 h2
    simp [V3.createAuthWit, ensure3_noop env s h1, hnone s fromAddr h2]
  · intro env s methods i m f h1 hm hf h2
    exact batch_encode_fails env s methods i m WErr.unauthorized h1 hm
      (encodeMethod_unauthorized s m f hf h2)
  · intro env exec opts s account h1 hfind hne
    simp only [V3.sendTx, ensure3_noop env s h1, hfind]
    simp only [hne, Bool.false_eq_true, if_false]
    simp only [V3.execute, ensure3_noop env s h1]
    repeat' split
    all_goals simp [Trace.append]

/-- Witness for the amended claim C2 at concrete inputs: a from address that
is no suffix of the only session account makes each single call fail with the
Unauthorized error and send nothing, a batch carrying such an entry first
fails the same way, and a matching suffix resolves to the full account
identifier. -/
theorem claim_C2_witness :
    V3.sendTx wEnv3 "e" ⟨"0xdead", "o"⟩ wS3 = (Except.error WErr.unauthorized, wS3, ⟨0, []⟩) ∧
    V3.simulateTx wEnv3 "e" ⟨"0xdead", "o"⟩ wS3 = (Except.error WErr.unauthorized, wS3, ⟨0, []⟩) ∧
    V3.profileTx wEnv3 "e" ⟨"0xdead", "o"⟩ wS3 = (Except.error WErr.unauthorized, wS3, ⟨0, []⟩) ∧
    V3.createAuthWit wEnv3 "0xdead" "h" wS3 = (Except.error WErr.unauthorized, wS3, ⟨0, []⟩) ∧
    (V3.batch wEnv3 [V3.BMethod.sendTx "e" ⟨"0xdead", "o"⟩] wS3).1 =
      Except.error WErr.unauthorized ∧
    (V3.sendTx wEnv3 "e" ⟨"0xabc", "o"⟩ wS3).2.2.executes =
      [[V3.Op.sendTx "aztec:11155111:0xabc" "e" ⟨"0xabc", "o"⟩]] := by
  refine ⟨claim_C2_amended.1 wEnv3 "e" ⟨"0xdead", "o"⟩ wS3 rfl (by decide),
          claim_C2_amended.2.1 wEnv3 "e" ⟨"0xdead", "o"⟩ wS3 rfl (by decide),
          claim_C2_amended.2.2.1 wEnv3 "e" ⟨"0xdead", "o"⟩ wS3 rfl (by decide),
          claim_C2_amended.2.2.2.1 wEnv3 "0xdead" "h" wS3 rfl (by decide),
          (claim_C2_amended.2.2.2.2.1 wEnv3 wS3 [V3.BMethod.sendTx "e" ⟨"0xdead", "o"⟩]
            0 (V3.BMethod.sendTx "e" ⟨"0xdead", "o"⟩) "0xdead" rfl rfl rfl (by decide)).2.2
            (fun k mk hk => by omega),
          claim_C2_amended.2.2.2.2.2 wEnv3 "e" ⟨"0xabc", "o"⟩ wS3 "aztec:11155111:0xabc"
            rfl (by decide) (by decide)⟩

/-- Counterexample for claim C2 as stated: a batch containing an account-scoped
entry whose from address matches no session account, preceded by an entry with
an unrecognized name, throws the UnsupportedMethodError rather than the
UnauthorizedAccountError (no execute request is sent either way). -/
theorem claim_C2_counterexample :
    (V3.batch wEnv3
      [V3.BMethod.requestCapabilities "m", V3.BMethod.sendTx "e" ⟨"0xdead", "o"⟩] wS3).1 =
      Except.error WErr.unsupportedBatch ∧
    (V3.batch wEnv3
      [V3.BMethod.requestCapabilities "m", V3.BMethod.sendTx "e" ⟨"0xdead", "o"⟩] wS3).2.2.executes = [] ∧
    WErr.unsupportedBatch ≠ WErr.unauthorized :=
  ⟨rfl, rfl, by decide⟩

/-- Claim C9 (corrected): a batch containing an entry whose name is not among
the supported batchable methods raises an error during the encode phase and
sends zero execute requests to the agent, so no operation of the batch is ever
submitted; the error is the UnsupportedMethodError provided no earlier
account-scoped entry fails its authorization first (the only other encode
failure), an exception the claim does not state. -/
theorem claim_C9_amended (env : V3.Env) (s : V3.State) (methods : List V3.BMethod)
    (i : Nat) (m : V3.BMethod)
    (h1 : s.connected = true) (hm : methods[i]? = some m)
    (hb : m.isBatchable = false) :
    (∃ e, (V3.batch env methods s).1 = Except.error e) ∧
    (V3.batch env methods s).2.2.executes = [] ∧
    ((∀ k mk, k < i → methods[k]? = some mk → ∃ op, V3.encodeMethod s mk = Except.ok op) →
      (V3.batch env methods s).1 = Except.error WErr.unsupportedBatch) :=
  batch_encode_fails env s methods i m WErr.unsupportedBatch h1 hm
    (encodeMethod_unsupported s m hb)

/-- Witness for the amended claim C9: a batch whose second entry has the
unrecognized name frobnicate, after a well-formed first entry, fails with the
UnsupportedMethodError and sends nothing. -/
theorem claim_C9_witness :
    (∃ e, (V3.batch wEnv3 [V3.BMethod.getChainInfo, V3.BMethod.other "frobnicate"] wS3).1 =
      Except.error e) ∧
    (V3.batch wEnv3 [V3.BMethod.getChainInfo, V3.BMethod.other "frobnicate"] wS3).2.2.executes = [] ∧
    (V3.batch wEnv3 [V3.BMethod.getChainInfo, V3.BMethod.other "frobnicate"] wS3).1 =
      Except.error WErr.unsupportedBatch := by
  have h := claim_C9_amended wEnv3 wS3 [V3.BMethod.getChainInfo, V3.BMethod.other "frobnicate"]
    1 (V3.BMethod.other "frobnicate") rfl rfl rfl
  exact ⟨h.1, h.2.1, h.2.2 (fun k mk hk hmk => by
    rw [Nat.lt_one_iff.mp hk] at hmk
    simp only [List.getElem?_cons_zero, Option.some.injEq] at hmk
    subst hmk
    exact ⟨V3.Op.getChainInfo wS3.chain, rfl⟩)⟩

/-- Counterexample for claim C9 as stated: a batch containing an entry with an
unrecognized name, preceded by an account-scoped entry whose from address
matches no session account, throws the UnauthorizedAccountError rather than
the UnsupportedMethodError (zero execute requests are sent either way). -/
theorem claim_C9_counterexample :
    (V3.batch wEnv3
      [V3.BMethod.sendTx "e" ⟨"0xdead", "o"⟩, V3.BMethod.other "frobnicate"] wS3).1 =
      Except.error WErr.unauthorized ∧
    (V3.batch wEnv3
      [V3.BMethod.sendTx "e" ⟨"0xdead", "o"⟩, V3.BMethod.other "frobnicate"] wS3).2.2.executes = [] ∧
    WErr.unauthorized ≠ WErr.unsupportedBatch :=
  ⟨rfl, rfl, by decide⟩

/-- Reduction of one decode step over an ok result whose schema validation
succeeds. -/
lemma decodePhase_cons_ok (env : V3.Env) (m0 : V3.BMethod) (ms : List V3.BMethod)
    (raw0 : String) (rs : List ExecResult) (sch : String → Option String) (v : String)
    (hsch : V3.schemaFor env m0 = some sch) (hv : sch raw0 = some v) :
    V3.decodePhase env (m0 :: ms) (ExecResult.ok raw0 :: rs) =
      (match V3.decodePhase env ms rs with
       | (Except.error e, n) => (Except.error e, n + 1)
       | (Except.ok outs, n) => (Except.ok (⟨m0.name, v⟩ :: outs), n + 1)) := by
  simp [V3.decodePhase, hsch, hv]

/-- Walking the decode phase up to the first failed or skipped result: the
phase errors, validates at most the ok entries positioned before it, and,
when each of those passes its schema validation, fails with exactly the error
naming the method at that position, having validated exactly the entries
before it. -/
lemma decodePhase_first_bad (env : V3.Env) :
    ∀ (j : Nat) (ms : List V3.BMethod) (rs : List ExecResult) (r : ExecResult),
      rs.length = ms.length →
      rs[j]? = some r → r.isBad = true →
      (∀ k, k < j → ∃ raw, rs[k]? = some (ExecResult.ok raw)) →
      (∃ e, (V3.decodePhase env ms rs).1 = Except.error e) ∧
      (V3.decodePhase env ms rs).2 ≤ j ∧
      ((∀ k raw mk, k < j → rs[k]? = some (ExecResult.ok raw) → ms[k]? = some mk →
          ∃ sch v, V3.schemaFor env mk = some sch ∧ sch raw = some v) →
        ∃ mj, ms[j]? = some mj ∧
          (V3.decodePhase env ms rs).1 = Except.error (V3.badErr mj.name r) ∧
          (V3.decodePhase env ms rs).2 = j) := by
  intro j
  induction j with
  | zero =>
    intro ms rs r hlen hj hbad hfirst
    cases rs with
    | nil => simp at hj
    | cons r0 rs =>
      cases ms with
      | nil => simp at hlen
      | cons m0 ms =>
        simp only [List.getElem?_cons_zero, Option.some.injEq] at hj
        subst hj
        cases r0 with
        | ok raw => simp [ExecResult.isBad] at hbad
        | failed e =>
          refine ⟨⟨WErr.batchFailed m0.name e, by simp [V3.decodePhase]⟩, Nat.zero_le 0,
            fun _ => ⟨m0, List.getElem?_cons_zero, by simp [V3.decodePhase, V3.badErr],
              by simp [V3.decodePhase]⟩⟩
        | skipped =>
          refine ⟨⟨WErr.batchSkipped m0.name, by simp [V3.decodePhase]⟩, Nat.zero_le 0,
            fun _ => ⟨m0, List.getElem?_cons_zero, by simp [V3.decodePhase, V3.badErr],
              by simp [V3.decodePhase]⟩⟩
  | succ j ih =>
    intro ms rs r hlen hj hbad hfirst
    cases rs with
    | nil => simp at hj
    | cons r0 rs =>
      cases ms with
      | nil => simp at hlen
      | cons m0 ms =>
        obtain ⟨raw0, h0⟩ := hfirst 0 (Nat.succ_pos j)
        simp only [List.getElem?_cons_zero, Option.some.injEq] at h0
        subst h0
        have hlen2 : rs.length = ms.length := by simpa using hlen
        have hj2 : rs[j]? = some r := by simpa using hj
        have hfirst2 : ∀ k, k < j → ∃ raw, rs[k]? = some (ExecResult.ok raw) := by
          intro k hk
          obtain ⟨raw, hraw⟩ := hfirst (k + 1) (Nat.succ_lt_succ hk)
          exact ⟨raw, by simpa using hraw⟩
        cases hsch : V3.schemaFor env m0 with
        | none =>
          refine ⟨⟨WErr.unsupportedBatch, by simp [V3.decodePhase, hsch]⟩,
                 by simp [V3.decodePhase, hsch], fun hval => ?_⟩
          obtain ⟨sch2, v2, hsch2, hv2⟩ := hval 0 raw0 m0 (Nat.succ_pos j)
            List.getElem?_cons_zero List.getElem?_cons_zero
          rw [hsch] at hsch2
          cases hsch2
        | some sch =>
          cases hv : sch raw0 with
          | none =>
            refine ⟨⟨WErr.validation, by simp [V3.decodePhase, hsch, hv]⟩,
                   by simp [V3.decodePhase, hsch, hv], fun hval => ?_⟩
            obtain ⟨sch2, v2, hsch2, hv2⟩ := hval 0 raw0 m0 (Nat.succ_pos j)
              List.getElem?_cons_zero List.getElem?_cons_zero
            rw [hsch] at hsch2
            injection hsch2 with hsch3
            subst hsch3
            rw [hv] at hv2
            cases hv2
          | some v =>
            obtain ⟨hex, hcnt, hname⟩ := ih ms rs r hlen2 hj2 hbad hfirst2
            rw [decodePhase_cons_ok env m0 ms raw0 rs sch v hsch hv]
            cases hdec : V3.decodePhase env ms rs with
            | mk dres dn =>
              rw [hdec] at hex hcnt hname
              obtain ⟨e, he⟩ := hex
              simp only at he
              subst he
              refine ⟨⟨e, rfl⟩, by simpa using Nat.succ_le_succ hcnt, fun hval => ?_⟩
              have hval2 : ∀ k raw mk, k < j → rs[k]? = some (ExecResult.ok raw) →
                  ms[k]? = some mk →
                  ∃ sch2 v2, V3.schemaFor env mk = some sch2 ∧ sch2 raw = some v2 := by
                intro k raw mk hk hr hmk
                exact hval (k + 1) raw mk (Nat.succ_lt_succ hk) (by simpa using hr)
                  (by simpa using hmk)
              obtain ⟨mj, hmj, hje, hjc⟩ := hname hval2
              simp only at hje hjc
              subst hjc
              injection hje with hje2
              exact ⟨mj, by simpa using hmj, by rw [hje2], rfl⟩

/-- Claim C3 (corrected): for a batch whose positionally aligned result list
contains a failed or skipped entry, with the first one at position j, the
batch returns no results, and entries positioned after j are never decoded or
validated (the decode phase performs at most j schema validations); when
every ok entry before position j passes its schema validation, the raised
error is exactly the one naming the method at position j (carrying the agent
message when failed) and exactly the j earlier entries were validated.  The
claim as stated omits that an earlier ok entry whose payload fails schema
validation aborts the batch with the ValidationError first, in which case no
error naming the failed entry's method is raised. -/
theorem claim_C3_amended (env : V3.Env) (s : V3.State) (methods : List V3.BMethod)
    (ops : List V3.Op) (j : Nat) (r : ExecResult)
    (h1 : s.connected = true)
    (h2 : V3.encodePhase s methods = Except.ok ops)
    (hlen : (env.executeResp ops).length = methods.length)
    (hj : (env.executeResp ops)[j]? = some r) (hbad : r.isBad = true)
    (hfirst : ∀ k, k < j → ∃ raw, (env.executeResp ops)[k]? = some (ExecResult.ok raw)) :
    (∃ e, (V3.batch env methods s).1 = Except.error e) ∧
    (V3.decodePhase env methods (env.executeResp ops)).2 ≤ j ∧
    ((∀ k raw mk, k < j → (env.executeResp ops)[k]? = some (ExecResult.ok raw) →
        methods[k]? = some mk →
        ∃ sch v, V3.schemaFor env mk = some sch ∧ sch raw = some v) →
      ∃ mj, methods[j]? = some mj ∧
        (V3.batch env methods s).1 = Except.error (V3.badErr mj.name r) ∧
        (V3.decodePhase env methods (env.executeResp ops)).2 = j) := by
  obtain ⟨hex, hcnt, hname⟩ :=
    decodePhase_first_bad env j methods (env.executeResp ops) r hlen hj hbad hfirst
  rw [batch_encode_ok env s methods ops h1 h2]
  exact ⟨hex, hcnt, fun hval => hname hval⟩

/-- Witness for the amended claim C3: against an agent answering an ok result
then a failed one, a two-entry batch whose first payload validates fails with
the error naming the second method and its agent message, after exactly one
validation. -/
theorem claim_C3_witness :
    ∃ mj, ([V3.BMethod.getChainInfo, V3.BMethod.getChainInfo] : List V3.BMethod)[1]? = some mj ∧
      (V3.batch wEnvC3w [V3.BMethod.getChainInfo, V3.BMethod.getChainInfo] wS3).1 =
        Except.error (V3.badErr mj.name (ExecResult.failed "boom")) ∧
      (V3.decodePhase wEnvC3w [V3.BMethod.getChainInfo, V3.BMethod.getChainInfo]
        (wEnvC3w.executeResp [V3.Op.getChainInfo wS3.chain, V3.Op.getChainInfo wS3.chain])).2 = 1 :=
  (claim_C3_amended wEnvC3w wS3 [V3.BMethod.getChainInfo, V3.BMethod.getChainInfo]
    [V3.Op.getChainInfo wS3.chain, V3.Op.getChainInfo wS3.chain] 1 (ExecResult.failed "boom")
    rfl rfl rfl rfl rfl
    (fun k hk => by
      rw [Nat.lt_one_iff.mp hk]
      exact ⟨"x", rfl⟩)).2.2
    (fun k raw mk hk hr hmk => by
      rw [Nat.lt_one_iff.mp hk] at hr hmk
      simp only [List.getElem?_cons_zero, Option.some.injEq] at hr hmk
      subst hmk
      exact ⟨some, raw, rfl, rfl⟩)

/-- Counterexample for claim C3 as stated: the agent answers ok then failed,
but the ok payload fails its schema validation, so the batch throws the
ValidationError, not an error naming the method of the first failed entry. -/
theorem claim_C3_counterexample :
    (V3.batch wEnvC3 [V3.BMethod.getChainInfo, V3.BMethod.getChainInfo] wS3).1 =
      Except.error WErr.validation ∧
    WErr.validation ≠ WErr.batchFailed "getChainInfo" "boom" :=
  ⟨rfl, by decide⟩

/-- On a list of ok results that all validate, the decode phase returns one
output per aligned method, in order, carrying the method name and the
schema-validated payload. -/
lemma decodePhase_ok_spec (env : V3.Env) :
    ∀ (ms : List V3.BMethod) (rs : List ExecResult) (outs : List V3.BOut),
      rs.length = ms.length →
      (V3.decodePhase env ms rs).1 = Except.ok outs →
      outs.map V3.BOut.name = ms.map V3.BMethod.name ∧
      outs.length = ms.length ∧
      (∀ (i : Nat) (mi : V3.BMethod) (ri : ExecResult) (oi : V3.BOut),
        ms[i]? = some mi → rs[i]? = some ri → outs[i]? = some oi →
        oi.name = mi.name ∧
        ∃ raw sch, ri = ExecResult.ok raw ∧ V3.schemaFor env mi = some sch ∧
          sch raw = some oi.result) := by
  intro ms
  induction ms with
  | nil =>
    intro rs outs hlen hok
    have hrs : rs = [] := List.length_eq_zero.mp hlen
    subst hrs
    simp only [V3.decodePhase, Except.ok.injEq] at hok
    subst hok
    refine ⟨rfl, rfl, ?_⟩
    intro i mi ri oi hmi
    simp at hmi
  | cons m0 ms ih =>
    intro rs outs hlen hok
    cases rs with
    | nil => simp at hlen
    | cons r0 rs =>
      have hlen2 : rs.length = ms.length := by simpa using hlen
      cases r0 with
      | failed e => simp [V3.decodePhase] at hok
      | skipped => simp [V3.decodePhase] at hok
      | ok raw0 =>
        cases hsch : V3.schemaFor env m0 with
        | none => simp [V3.decodePhase, hsch] at hok
        | some sch =>
          cases hv : sch raw0 with
          | none => simp [V3.decodePhase, hsch, hv] at hok
          | some v =>
            rw [decodePhase_cons_ok env m0 ms raw0 rs sch v hsch hv] at hok
            cases hdec : V3.decodePhase env ms rs with
            | mk dres dn =>
              rw [hdec] at hok
              cases dres with
              | error e => simp at hok
              | ok outs0 =>
                simp only [Except.ok.injEq] at hok
                subst hok
                obtain ⟨hnames, hlen3, hidx⟩ := ih rs outs0 hlen2 (by rw [hdec])
                refine ⟨by simp [hnames], by simp [hlen3], ?_⟩
                intro i mi ri oi hmi hri hoi
                cases i with
                | zero =>
                  simp only [List.getElem?_cons_zero, Option.some.injEq] at hmi hri hoi
                  subst hmi
                  subst hri
                  subst hoi
                  exact ⟨rfl, raw0, sch, rfl, hsch, hv⟩
                | succ i =>
                  exact hidx i mi ri oi (by simpa using hmi) (by simpa using hri)
                    (by simpa using hoi)

/-- Claim C4 (confirmed): when the agent returns exactly one positionally
corresponding result per submitted operation and the batch succeeds, the
output list has the same length as the input method-call list, its entries
are in input order, and each entry carries the method name of the input at
its position together with the value obtained by validating the agent result
at the same position with that method's schema. -/
theorem claim_C4 (env : V3.Env) (s : V3.State) (methods : List V3.BMethod)
    (out : List V3.BOut)
    (h1 : s.connected = true)
    (hlen : ∀ ops, (env.executeResp ops).length = ops.length)
    (hok : (V3.batch env methods s).1 = Except.ok out) :
    out.length = methods.length ∧
    out.map V3.BOut.name = methods.map V3.BMethod.name ∧
    ∃ ops, V3.encodePhase s methods = Except.ok ops ∧
      (∀ (i : Nat) (mi : V3.BMethod) (ri : ExecResult) (oi : V3.BOut),
        methods[i]? = some mi → (env.executeResp ops)[i]? = some ri →
        out[i]? = some oi →
        oi.name = mi.name ∧
        ∃ raw sch, ri = ExecResult.ok raw ∧ V3.schemaFor env mi = some sch ∧
          sch raw = some oi.result) := by
  cases h2 : V3.encodePhase s methods with
  | error e =>
    rw [batch_encode_error env s methods e h1 h2] at hok
    simp at hok
  | ok ops =>
    rw [batch_encode_ok env s methods ops h1 h2] at hok
    have hlen2 : (env.executeResp ops).length = methods.length := by
      rw [hlen ops, encodePhase_length s methods ops h2]
    obtain ⟨hnames, hlen3, hidx⟩ :=
      decodePhase_ok_spec env methods (env.executeResp ops) out hlen2 hok
    exact ⟨hlen3, hnames, ops, rfl, hidx⟩

/-- Witness for claim C4: a one-entry batch against an agent answering one ok
result per operation succeeds with one output carrying the entry's method
name. -/
theorem claim_C4_witness :
    (V3.batch wEnv3 [V3.BMethod.getChainInfo] wS3).1 = Except.ok [⟨"getChainInfo", "res"⟩] ∧
    ([⟨"getChainInfo", "res"⟩] : List V3.BOut).map V3.BOut.name =
      ([V3.BMethod.getChainInfo] : List V3.BMethod).map V3.BMethod.name :=
  ⟨rfl, (claim_C4 wEnv3 wS3 [V3.BMethod.getChainInfo] [⟨"getChainInfo", "res"⟩] rfl
    (fun ops => by simp [wEnv3]) rfl).2.1⟩

end AztecWalletModel
